import Mathlib

/-
Verification of `blockstack_client/rpc_runner.py` (blockstack_cli 0.14.1).

The script is a CLI dispatcher: it parses a command token and a port from the
process arguments, optionally overrides the configuration directory with a
third argument, and calls one of three external collaborator functions
(`local_rpc_start`, `local_rpc_stop`, `local_rpc_status`), mapping their
boolean results to process exit codes and, for some branches, printed text.

We embed the `__main__` block as a pure function from the invocation
arguments, the process environment, the configuration-module constants and
the boolean results the collaborator calls would return, to the observable
outcome: exit code, printed output, and the ordered list of collaborator
calls made together with the arguments passed at each call site.

Python-2 semantics notes (the file does `from __future__ import
print_function`): `print(x, y)` with two positional arguments and no `file=`
keyword writes both values, space-separated, to standard output; passing
`sys.stderr` as a second positional argument does NOT redirect the stream, it
makes the textual representation of the stream object part of the printed
line.  `traceback.print_exc()` writes the exception trace to standard error.
-/

namespace RpcRunner

/-- ASCII whitespace characters stripped by Python `int(s)` before parsing. -/
def isPySpace (c : Char) : Bool :=
  c = ' ' || c = '\t' || c = '\n' || c = '\r' || c = '\x0b' || c = '\x0c'

/-- Value of a decimal digit character, `none` for a non-digit. -/
def digitVal (c : Char) : Option Nat :=
  if '0' ≤ c && c ≤ '9' then some (c.toNat - '0'.toNat) else none

/-- Accumulate the value of a run of decimal digits; `none` on any non-digit. -/
def parseDigitsAux : List Char → Nat → Option Nat
  | [], acc => some acc
  | c :: cs, acc =>
    match digitVal c with
    | some d => parseDigitsAux cs (10 * acc + d)
    | none => none

/-- Embeds Python `int(s)` on a string: optional surrounding ASCII whitespace,
an optional sign, then one or more decimal digits; any other input raises
`ValueError`, modelled as `none`. -/
def pyInt (s : String) : Option Int :=
  let cs := ((s.toList.dropWhile isPySpace).reverse.dropWhile isPySpace).reverse
  match cs with
  | [] => none
  | '+' :: rest =>
      if rest.isEmpty then none else (parseDigitsAux rest 0).map Int.ofNat
  | '-' :: rest =>
      if rest.isEmpty then none else (parseDigitsAux rest 0).map (fun n => -(n : Int))
  | rest => (parseDigitsAux rest 0).map Int.ofNat

/-- Embeds `os.path.basename` (POSIX): the part of the path after the last
slash; the whole string when there is no slash. -/
def os_path_basename (p : String) : String :=
  String.mk ((p.toList.reverse.takeWhile (fun c => c ≠ '/')).reverse)

/-- Embeds the two-argument `os.path.join` (POSIX): an absolute second
component replaces the first; otherwise the components are concatenated with
a separating slash unless the first is empty or already ends in a slash. -/
def os_path_join (a b : String) : String :=
  if b.toList.take 1 = ['/'] then b
  else if a.toList = [] || a.toList.getLast? = some '/' then a ++ b
  else a ++ "/" ++ b

/-- The constants the script reads from the configuration module
(`blockstack_config.CONFIG_DIR` and `blockstack_config.CONFIG_PATH`). -/
structure ConfigModule where
  CONFIG_DIR : String
  CONFIG_PATH : String
deriving DecidableEq

/-- The boolean results that the external collaborator functions would return
if called (`local_rpc_start`, `local_rpc_stop`, `local_rpc_status`); each is
called at most once per invocation of the script. -/
structure RpcResults where
  startRc : Bool
  stopRc : Bool
  statusRc : Bool
deriving DecidableEq

/-- A call to the external RPC collaborator, recording the arguments passed at
the call site.  `password = none` or `foreground = none` mean the keyword
argument was not passed at all (so the Python default of the callee applies);
`password = some p` means the keyword was passed with value `p`, which is
itself `none` when the environment variable was unset (Python `None`). -/
inductive RpcCall where
  | start (port : Int) (config_dir : String)
      (password : Option (Option String)) (foreground : Option Bool)
  | stop (config_dir : String)
  | status (config_dir : String)
deriving DecidableEq

/-- Whether a collaborator call is a call to `local_rpc_start`. -/
def RpcCall.isStart : RpcCall → Bool
  | .start _ _ _ _ => true
  | _ => false

/-- One positional argument of a `print` call: either a literal string or the
`sys.stderr` file object, whose printed form is its platform-dependent
textual representation. -/
inductive PrintPart where
  | str (s : String)
  | stderrObj
deriving DecidableEq

/-- One observable output action of the script.  Every `print(...)` in the
script has no `file=` keyword and therefore writes its space-separated
arguments to standard output; `traceback.print_exc()` writes the exception
trace to standard error. -/
inductive OutputItem where
  | stdoutPrint (parts : List PrintPart)
  | stderrTraceback
deriving DecidableEq

/-- The observable outcome of one invocation: the exit code passed to
`sys.exit`, the printed output in order, and the collaborator calls in order. -/
structure RunResult where
  exitCode : Nat
  output : List OutputItem
  calls : List RpcCall
deriving DecidableEq

/-- Lines 40 to 46 of the script: `config_dir` and `config_path` start from the
configuration-module defaults; when `len(sys.argv) > 3` (a fourth element,
i.e. a third positional argument, exists) `config_dir` becomes `sys.argv[3]`
and `config_path` is recomputed as
`os.path.join(config_dir, os.path.basename(blockstack_config.CONFIG_PATH))`.
The match on the argument list is exactly the `len(sys.argv) > 3` test. -/
def resolve_config (argv : List String) (cfg : ConfigModule) : String × String :=
  match argv with
  | _ :: _ :: _ :: config_dir :: _ =>
      (config_dir, os_path_join config_dir (os_path_basename cfg.CONFIG_PATH))
  | _ => (cfg.CONFIG_DIR, cfg.CONFIG_PATH)

/-- Embeds the `__main__` block of `rpc_runner.py`.  `argv` is `sys.argv`
(Python guarantees it is nonempty; `argv.headD ""` stands for `sys.argv[0]`),
`env` is `os.environ.get`, `cfg` the configuration-module constants, `rpc`
the collaborator results.  The `try` block fails exactly when `sys.argv[1]`
or `sys.argv[2]` is missing (`IndexError`) or `int(sys.argv[2])` fails
(`ValueError`); both are caught by the one `except` clause, which runs
`traceback.print_exc()` (standard error) and `print(usage, sys.stderr)`
(standard output, with the stream object as second printed value), then
exits 1. -/
def rpc_runner_main (argv : List String) (env : String → Option String)
    (cfg : ConfigModule) (rpc : RpcResults) : RunResult :=
  let usage := argv.headD "" ++ " COMMAND PORT [config_path]"
  let parse_failure : RunResult :=
    { exitCode := 1,
      output := [.stderrTraceback, .stdoutPrint [.str usage, .stderrObj]],
      calls := [] }
  match argv with
  | _ :: command :: portstr :: _ =>
    match pyInt portstr with
    | none => parse_failure
    | some portnum =>
      let config_dir := (resolve_config argv cfg).1
      if command = "start" then
        let passwd := env "BLOCKSTACK_CLIENT_WALLET_PASSWORD"
        let rc := rpc.startRc
        { exitCode := if rc then 0 else 1,
          output := [],
          calls := [.start portnum config_dir (some passwd) none] }
      else if command = "start-foreground" then
        let passwd := env "BLOCKSTACK_CLIENT_WALLET_PASSWORD"
        let rc := rpc.startRc
        { exitCode := if rc then 0 else 1,
          output := [],
          calls := [.start portnum config_dir (some passwd) (some true)] }
      else if command = "status" then
        let rc := rpc.statusRc
        if rc then
          { exitCode := 0,
            output := [.stdoutPrint [.str "Alive", .stderrObj]],
            calls := [.status config_dir] }
        else
          { exitCode := 1,
            output := [.stdoutPrint [.str "Dead", .stderrObj]],
            calls := [.status config_dir] }
      else if command = "stop" then
        let rc := rpc.stopRc
        { exitCode := if rc then 0 else 1,
          output := [],
          calls := [.stop config_dir] }
      else if command = "restart" then
        let rc := rpc.stopRc
        if !rc then
          { exitCode := 1, output := [], calls := [.stop config_dir] }
        else
          let rc := rpc.startRc
          { exitCode := if rc then 0 else 1,
            output := [],
            calls := [.stop config_dir, .start portnum config_dir none none] }
      else
        { exitCode := 1,
          output := [.stdoutPrint [.str usage, .stderrObj]],
          calls := [] }
  | _ => parse_failure

/-- Claim C1.  The claim says the `status` branch prints `Alive` (result true,
exit 0) or `Dead` (result false, exit 1) to the ERROR stream.  The exit codes
are as claimed, but `print('Alive', sys.stderr)` with the imported
`print_function` writes to STANDARD OUTPUT, with the representation of the
`sys.stderr` object printed after the word; this closed theorem evaluates the
script at the failing input `prog status 6264`, for both collaborator
results. -/
theorem status_prints_to_stdout_not_stderr :
    (rpc_runner_main ["prog", "status", "6264"] (fun _ => none)
        ⟨"/root/.blockstack", "/root/.blockstack/client.ini"⟩
        ⟨true, true, true⟩)
      = { exitCode := 0,
          output := [.stdoutPrint [.str "Alive", .stderrObj]],
          calls := [.status "/root/.blockstack"] } ∧
    (rpc_runner_main ["prog", "status", "6264"] (fun _ => none)
        ⟨"/root/.blockstack", "/root/.blockstack/client.ini"⟩
        ⟨true, true, false⟩)
      = { exitCode := 1,
          output := [.stdoutPrint [.str "Dead", .stderrObj]],
          calls := [.status "/root/.blockstack"] } := by
  exact ⟨rfl, rfl⟩

/-- Claim C2.  For the `restart` command, if the stop call returns false then
the start call is never invoked and the process exits with code 1. -/
theorem restart_stop_failure_aborts (prog port : String) (rest : List String)
    (env : String → Option String) (cfg : ConfigModule) (rpc : RpcResults)
    (n : Int) (hp : pyInt port = some n) (hs : rpc.stopRc = false) :
    (rpc_runner_main (prog :: "restart" :: port :: rest) env cfg rpc).exitCode = 1 ∧
    ∀ c ∈ (rpc_runner_main (prog :: "restart" :: port :: rest) env cfg rpc).calls,
      c.isStart = false := by
  simp [rpc_runner_main, hp, hs, RpcCall.isStart]

/-- Witness for C2 at the invocation `prog restart 6264` with the stop
collaborator failing. -/
theorem restart_stop_failure_aborts_witness :
    (rpc_runner_main ["prog", "restart", "6264"] (fun _ => none)
        ⟨"/root/.blockstack", "/root/.blockstack/client.ini"⟩
        ⟨true, false, true⟩).exitCode = 1 ∧
    ∀ c ∈ (rpc_runner_main ["prog", "restart", "6264"] (fun _ => none)
        ⟨"/root/.blockstack", "/root/.blockstack/client.ini"⟩
        ⟨true, false, true⟩).calls, c.isStart = false :=
  restart_stop_failure_aborts "prog" "6264" [] (fun _ => none)
    ⟨"/root/.blockstack", "/root/.blockstack/client.ini"⟩
    ⟨true, false, true⟩ 6264 (by decide) rfl

/-- Claim C3.  For the `restart` command, when the stop call returns true the
exit code mirrors the result of the subsequent start call: 0 when it returns
true, 1 when it returns false. -/
theorem restart_exit_mirrors_start (prog port : String) (rest : List String)
    (env : String → Option String) (cfg : ConfigModule) (rpc : RpcResults)
    (n : Int) (hp : pyInt port = some n) (hs : rpc.stopRc = true) :
    (rpc_runner_main (prog :: "restart" :: port :: rest) env cfg rpc).exitCode
      = (if rpc.startRc then 0 else 1) := by
  simp [rpc_runner_main, hp, hs]

/-- Witness for C3 at `prog restart 6264`, once with the start collaborator
succeeding and once with it failing. -/
theorem restart_exit_mirrors_start_witness :
    (rpc_runner_main ["prog", "restart", "6264"] (fun _ => none)
        ⟨"/root/.blockstack", "/root/.blockstack/client.ini"⟩
        ⟨true, true, true⟩).exitCode = (if true then 0 else 1) ∧
    (rpc_runner_main ["prog", "restart", "6264"] (fun _ => none)
        ⟨"/root/.blockstack", "/root/.blockstack/client.ini"⟩
        ⟨false, true, true⟩).exitCode = (if false then 0 else 1) :=
  ⟨restart_exit_mirrors_start "prog" "6264" [] (fun _ => none)
      ⟨"/root/.blockstack", "/root/.blockstack/client.ini"⟩
      ⟨true, true, true⟩ 6264 (by decide) rfl,
   restart_exit_mirrors_start "prog" "6264" [] (fun _ => none)
      ⟨"/root/.blockstack", "/root/.blockstack/client.ini"⟩
      ⟨false, true, true⟩ 6264 (by decide) rfl⟩

/-- Claim C4.  The claim says malformed input (missing command, missing port,
or non-integer port) makes the script print the usage message AND the
diagnostic trace to the ERROR stream and exit 1.  Exit code 1 and the
diagnostic trace on standard error are as claimed, but
`print(usage, sys.stderr)` writes the usage line to STANDARD OUTPUT (with the
representation of the stream object appended).  This closed theorem evaluates
the three malformed shapes. -/
theorem malformed_input_usage_goes_to_stdout :
    (rpc_runner_main ["prog"] (fun _ => none)
        ⟨"/root/.blockstack", "/root/.blockstack/client.ini"⟩ ⟨true, true, true⟩)
      = { exitCode := 1,
          output := [.stderrTraceback,
            .stdoutPrint [.str "prog COMMAND PORT [config_path]", .stderrObj]],
          calls := [] } ∧
    (rpc_runner_main ["prog", "status"] (fun _ => none)
        ⟨"/root/.blockstack", "/root/.blockstack/client.ini"⟩ ⟨true, true, true⟩)
      = { exitCode := 1,
          output := [.stderrTraceback,
            .stdoutPrint [.str "prog COMMAND PORT [config_path]", .stderrObj]],
          calls := [] } ∧
    (rpc_runner_main ["prog", "start", "sixty"] (fun _ => none)
        ⟨"/root/.blockstack", "/root/.blockstack/client.ini"⟩ ⟨true, true, true⟩)
      = { exitCode := 1,
          output := [.stderrTraceback,
            .stdoutPrint [.str "prog COMMAND PORT [config_path]", .stderrObj]],
          calls := [] } := by
  exact ⟨rfl, rfl, by decide⟩

/-- Claim C5.  For `start`, `start-foreground` and `stop`, the exit code is 0
when the corresponding collaborator call returns true and 1 when it returns
false. -/
theorem lifecycle_exit_mirrors_rc (prog port : String) (rest : List String)
    (env : String → Option String) (cfg : ConfigModule) (rpc : RpcResults)
    (n : Int) (hp : pyInt port = some n) :
    (rpc_runner_main (prog :: "start" :: port :: rest) env cfg rpc).exitCode
      = (if rpc.startRc then 0 else 1) ∧
    (rpc_runner_main (prog :: "start-foreground" :: port :: rest) env cfg rpc).exitCode
      = (if rpc.startRc then 0 else 1) ∧
    (rpc_runner_main (prog :: "stop" :: port :: rest) env cfg rpc).exitCode
      = (if rpc.stopRc then 0 else 1) := by
  refine ⟨?_, ?_, ?_⟩ <;> simp [rpc_runner_main, hp]

/-- Witness for C5 at `prog <command> 6264` with the start collaborator
succeeding and the stop collaborator failing. -/
theorem lifecycle_exit_mirrors_rc_witness :
    (rpc_runner_main ["prog", "start", "6264"] (fun _ => none)
        ⟨"/root/.blockstack", "/root/.blockstack/client.ini"⟩
        ⟨true, false, true⟩).exitCode = (if true then 0 else 1) ∧
    (rpc_runner_main ["prog", "start-foreground", "6264"] (fun _ => none)
        ⟨"/root/.blockstack", "/root/.blockstack/client.ini"⟩
        ⟨true, false, true⟩).exitCode = (if true then 0 else 1) ∧
    (rpc_runner_main ["prog", "stop", "6264"] (fun _ => none)
        ⟨"/root/.blockstack", "/root/.blockstack/client.ini"⟩
        ⟨true, false, true⟩).exitCode = (if false then 0 else 1) :=
  lifecycle_exit_mirrors_rc "prog" "6264" [] (fun _ => none)
    ⟨"/root/.blockstack", "/root/.blockstack/client.ini"⟩
    ⟨true, false, true⟩ 6264 (by decide)

/-- Claim C6.  With a third positional argument `d` present, the configuration
directory becomes `d` and the configuration file path is recomputed as `d`
joined with the base filename of the default configuration file path; with no
third positional argument, both fall back to the configuration-module
defaults. -/
theorem config_dir_override (prog cmd port d : String) (rest : List String)
    (cfg : ConfigModule) :
    resolve_config (prog :: cmd :: port :: d :: rest) cfg
      = (d, os_path_join d (os_path_basename cfg.CONFIG_PATH)) ∧
    ∀ argv : List String, argv.length ≤ 3 →
      resolve_config argv cfg = (cfg.CONFIG_DIR, cfg.CONFIG_PATH) := by
  refine ⟨rfl, ?_⟩
  intro argv h
  match argv with
  | [] => rfl
  | [_] => rfl
  | [_, _] => rfl
  | [_, _, _] => rfl
  | _ :: _ :: _ :: _ :: _ => simp at h

/-- Witness for C6: with override `/tmp/cfg` the file path becomes
`/tmp/cfg/client.ini`; without it the defaults are kept. -/
theorem config_dir_override_witness :
    resolve_config ["prog", "status", "6264", "/tmp/cfg"]
        ⟨"/root/.blockstack", "/root/.blockstack/client.ini"⟩
      = ("/tmp/cfg", "/tmp/cfg/client.ini") ∧
    resolve_config ["prog", "status", "6264"]
        ⟨"/root/.blockstack", "/root/.blockstack/client.ini"⟩
      = ("/root/.blockstack", "/root/.blockstack/client.ini") := by
  constructor
  · rw [(config_dir_override "prog" "status" "6264" "/tmp/cfg" []
      ⟨"/root/.blockstack", "/root/.blockstack/client.ini"⟩).1]
    decide
  · exact (config_dir_override "prog" "status" "6264" "/tmp/cfg" []
      ⟨"/root/.blockstack", "/root/.blockstack/client.ini"⟩).2
      ["prog", "status", "6264"] (by decide)

/-- Claim C7.  For `start` and `start-foreground`, the value of the
environment variable `BLOCKSTACK_CLIENT_WALLET_PASSWORD` (Python `None` when
unset) is forwarded verbatim as the `password` keyword of the start call;
`start-foreground` additionally passes `foreground=True` while `start` passes
no `foreground` keyword. -/
theorem start_forwards_password (prog port : String) (rest : List String)
    (env : String → Option String) (cfg : ConfigModule) (rpc : RpcResults)
    (n : Int) (hp : pyInt port = some n) :
    (rpc_runner_main (prog :: "start" :: port :: rest) env cfg rpc).calls
      = [RpcCall.start n (resolve_config (prog :: "start" :: port :: rest) cfg).1
          (some (env "BLOCKSTACK_CLIENT_WALLET_PASSWORD")) none] ∧
    (rpc_runner_main (prog :: "start-foreground" :: port :: rest) env cfg rpc).calls
      = [RpcCall.start n
          (resolve_config (prog :: "start-foreground" :: port :: rest) cfg).1
          (some (env "BLOCKSTACK_CLIENT_WALLET_PASSWORD")) (some true)] := by
  constructor <;> simp [rpc_runner_main, hp]

/-- Witness for C7: with the variable set to `hunter2` the start call receives
that very string as password, and `start-foreground` also passes the
foreground flag. -/
theorem start_forwards_password_witness :
    (rpc_runner_main ["prog", "start", "6264"]
        (fun k => if k = "BLOCKSTACK_CLIENT_WALLET_PASSWORD"
                  then some "hunter2" else none)
        ⟨"/root/.blockstack", "/root/.blockstack/client.ini"⟩
        ⟨true, true, true⟩).calls
      = [RpcCall.start 6264 "/root/.blockstack" (some (some "hunter2")) none] ∧
    (rpc_runner_main ["prog", "start-foreground", "6264"]
        (fun k => if k = "BLOCKSTACK_CLIENT_WALLET_PASSWORD"
                  then some "hunter2" else none)
        ⟨"/root/.blockstack", "/root/.blockstack/client.ini"⟩
        ⟨true, true, true⟩).calls
      = [RpcCall.start 6264 "/root/.blockstack"
          (some (some "hunter2")) (some true)] := by
  have h := start_forwards_password "prog" "6264" []
    (fun k => if k = "BLOCKSTACK_CLIENT_WALLET_PASSWORD"
              then some "hunter2" else none)
    ⟨"/root/.blockstack", "/root/.blockstack/client.ini"⟩
    ⟨true, true, true⟩ 6264 (by decide)
  refine ⟨?_, ?_⟩
  · rw [h.1]; decide
  · rw [h.2]; decide

/-- Claim C8.  For any command token outside the five recognized ones, with a
well-formed port, the script prints the usage text, exits 1, and makes no
collaborator call. -/
theorem unknown_command_usage (prog cmd port : String) (rest : List String)
    (env : String → Option String) (cfg : ConfigModule) (rpc : RpcResults)
    (n : Int) (hp : pyInt port = some n)
    (hc : cmd ≠ "start" ∧ cmd ≠ "start-foreground" ∧ cmd ≠ "status" ∧
          cmd ≠ "stop" ∧ cmd ≠ "restart") :
    rpc_runner_main (prog :: cmd :: port :: rest) env cfg rpc
      = { exitCode := 1,
          output := [.stdoutPrint
            [.str (prog ++ " COMMAND PORT [config_path]"), .stderrObj]],
          calls := [] } := by
  obtain ⟨h1, h2, h3, h4, h5⟩ := hc
  simp [rpc_runner_main, hp, h1, h2, h3, h4, h5]

/-- Witness for C8 at the unrecognized command `frobnicate`. -/
theorem unknown_command_usage_witness :
    rpc_runner_main ["prog", "frobnicate", "6264"] (fun _ => none)
        ⟨"/root/.blockstack", "/root/.blockstack/client.ini"⟩
        ⟨true, true, true⟩
      = { exitCode := 1,
          output := [.stdoutPrint
            [.str ("prog" ++ " COMMAND PORT [config_path]"), .stderrObj]],
          calls := [] } :=
  unknown_command_usage "prog" "frobnicate" "6264" [] (fun _ => none)
    ⟨"/root/.blockstack", "/root/.blockstack/client.ini"⟩
    ⟨true, true, true⟩ 6264 (by decide) (by decide)

/-- Claim C9.  The `restart` branch never reads the environment (its outcome
is the same under any two environments), and when the stop call succeeds its
start call passes neither a `password` nor a `foreground` keyword, unlike the
`start` and `start-foreground` branches. -/
theorem restart_no_password (prog port : String) (rest : List String)
    (env env2 : String → Option String) (cfg : ConfigModule)
    (rpc : RpcResults) (n : Int) (hp : pyInt port = some n) :
    rpc_runner_main (prog :: "restart" :: port :: rest) env cfg rpc
      = rpc_runner_main (prog :: "restart" :: port :: rest) env2 cfg rpc ∧
    (rpc.stopRc = true →
      (rpc_runner_main (prog :: "restart" :: port :: rest) env cfg rpc).calls
        = [RpcCall.stop (resolve_config (prog :: "restart" :: port :: rest) cfg).1,
           RpcCall.start n
             (resolve_config (prog :: "restart" :: port :: rest) cfg).1
             none none]) := by
  constructor
  · simp [rpc_runner_main, hp]
  · intro hs
    simp [rpc_runner_main, hp, hs]

/-- Witness for C9 at `prog restart 6264` under two different environments. -/
theorem restart_no_password_witness :
    rpc_runner_main ["prog", "restart", "6264"] (fun _ => none)
        ⟨"/root/.blockstack", "/root/.blockstack/client.ini"⟩ ⟨true, true, true⟩
      = rpc_runner_main ["prog", "restart", "6264"]
        (fun _ => some "hunter2")
        ⟨"/root/.blockstack", "/root/.blockstack/client.ini"⟩
        ⟨true, true, true⟩ ∧
    (rpc_runner_main ["prog", "restart", "6264"] (fun _ => none)
        ⟨"/root/.blockstack", "/root/.blockstack/client.ini"⟩
        ⟨true, true, true⟩).calls
      = [RpcCall.stop
          (resolve_config ["prog", "restart", "6264"]
            ⟨"/root/.blockstack", "/root/.blockstack/client.ini"⟩).1,
         RpcCall.start 6264
          (resolve_config ["prog", "restart", "6264"]
            ⟨"/root/.blockstack", "/root/.blockstack/client.ini"⟩).1
          none none] :=
  ⟨(restart_no_password "prog" "6264" [] (fun _ => none) (fun _ => some "hunter2")
      ⟨"/root/.blockstack", "/root/.blockstack/client.ini"⟩
      ⟨true, true, true⟩ 6264 (by decide)).1,
   (restart_no_password "prog" "6264" [] (fun _ => none) (fun _ => some "hunter2")
      ⟨"/root/.blockstack", "/root/.blockstack/client.ini"⟩
      ⟨true, true, true⟩ 6264 (by decide)).2 rfl⟩

/-- Claim C10.  For the `status` and `stop` commands, the whole observable
outcome (exit code, printed output, collaborator calls) is unchanged when
only the well-formed port argument differs between two invocations. -/
theorem status_stop_port_independent (prog p1 p2 : String) (rest : List String)
    (env : String → Option String) (cfg : ConfigModule) (rpc : RpcResults)
    (n1 n2 : Int) (h1 : pyInt p1 = some n1) (h2 : pyInt p2 = some n2) :
    rpc_runner_main (prog :: "status" :: p1 :: rest) env cfg rpc
      = rpc_runner_main (prog :: "status" :: p2 :: rest) env cfg rpc ∧
    rpc_runner_main (prog :: "stop" :: p1 :: rest) env cfg rpc
      = rpc_runner_main (prog :: "stop" :: p2 :: rest) env cfg rpc := by
  rcases rest with _ | ⟨d, rest⟩ <;>
    constructor <;> simp [rpc_runner_main, h1, h2, resolve_config]

/-- Witness for C10: ports 6264 and 7777 give identical outcomes for `status`
and for `stop`. -/
theorem status_stop_port_independent_witness :
    rpc_runner_main ["prog", "status", "6264"] (fun _ => none)
        ⟨"/root/.blockstack", "/root/.blockstack/client.ini"⟩ ⟨true, false, true⟩
      = rpc_runner_main ["prog", "status", "7777"] (fun _ => none)
        ⟨"/root/.blockstack", "/root/.blockstack/client.ini"⟩
        ⟨true, false, true⟩ ∧
    rpc_runner_main ["prog", "stop", "6264"] (fun _ => none)
        ⟨"/root/.blockstack", "/root/.blockstack/client.ini"⟩ ⟨true, false, true⟩
      = rpc_runner_main ["prog", "stop", "7777"] (fun _ => none)
        ⟨"/root/.blockstack", "/root/.blockstack/client.ini"⟩
        ⟨true, false, true⟩ :=
  status_stop_port_independent "prog" "6264" "7777" [] (fun _ => none)
    ⟨"/root/.blockstack", "/root/.blockstack/client.ini"⟩
    ⟨true, false, true⟩ 6264 7777 (by decide) (by decide)

end RpcRunner
